import Mathlib

/-!
# Verification of the Duo broker client's marshalling layer

Shallow embedding of the value conversion, path resolution and request
building code of `vehicle-app-cpp-template` (files
`sdk/src/sdk/vdb/grpc/duo/TypeConverter.cpp`,
`sdk/src/sdk/vdb/grpc/duo/BrokerClient.cpp`,
`sdk/src/sdk/vdb/grpc/duo/BrokerAsyncGrpcFacade.cpp`), together with
theorems settling the spec's testable properties.

Modelling conventions:
* `google::protobuf::Value` becomes the inductive `DuoValue`; a protobuf
  `Struct` is modelled as an association list of fields, fixing one
  iteration order (the C++ `google::protobuf::Map` iteration order is
  unspecified but deterministic within a run).
* C++ `double` payloads are modelled as exact rationals (`ℚ`).  IEEE
  rounding is not modelled, so theorems about numeric encodings carry
  explicit exact-representability hypotheses (|n| ≤ 2^53) where the
  original code narrows a 64-bit integer to `double`.  Non-finite doubles
  (NaN/Inf) are not representable in this model; the `std::isfinite`
  check of the source therefore always passes here.
* throwing C++ functions become `Except ConvError` computations.
-/

/-- Model of `google::protobuf::Value`: the dynamically typed wire value
(`null | bool | number | string | list | struct`). Struct fields are an
association list in the order the map iterates them. -/
inductive DuoValue : Type where
  | null : DuoValue
  | bool (b : Bool) : DuoValue
  | num (q : ℚ) : DuoValue
  | str (s : String) : DuoValue
  | list (xs : List DuoValue) : DuoValue
  | strct (fields : List (String × DuoValue)) : DuoValue
deriving Repr

/-- Conversion failures: `InvalidValueException` / `InvalidTypeException`
of the SDK, carrying the thrown message. -/
inductive ConvError : Type where
  | invalidValue (msg : String) : ConvError
  | invalidType (msg : String) : ConvError
deriving DecidableEq, Repr

/-- `DuoTypeConverter::toDuoPath`: replace every `'.'` by `'/'`. -/
def toDuoPath (path : String) : String :=
  String.mk (path.toList.map (fun c => if c = '.' then '/' else c))

/-- `DuoTypeConverter::toInternalPath`: replace every `'/'` by `'.'`. -/
def toInternalPath (path : String) : String :=
  String.mk (path.toList.map (fun c => if c = '/' then '.' else c))

/-- Loop body of `splitPath`: walk the characters, cutting at `'.'` and
dropping empty segments (consecutive, leading or trailing dots). -/
def splitPathAux : List Char → List Char → List String
  | [], acc => if acc.isEmpty then [] else [String.mk acc.reverse]
  | c :: rest, acc =>
    if c = '.' then
      if acc.isEmpty then splitPathAux rest []
      else String.mk acc.reverse :: splitPathAux rest []
    else splitPathAux rest (c :: acc)

/-- `splitPath` of `TypeConverter.cpp`: split a dotted path into its
non-empty segments. -/
def splitPath (path : String) : List String :=
  splitPathAux path.toList []

/-- Field lookup in a modelled protobuf `Struct` (`fields().find(key)`). -/
def lookupField (fields : List (String × DuoValue)) (key : String) : Option DuoValue :=
  (fields.find? (fun kv => kv.1 = key)).map (fun kv => kv.2)

/-- `accessField`: look the key up as given, then retry with dots
replaced by slashes. -/
def accessField (fields : List (String × DuoValue)) (key : String) : Option DuoValue :=
  match lookupField fields key with
  | some v => some v
  | none => lookupField fields (toDuoPath key)

/-- The `for` loop of `locateLeaf`: at a struct node, try the segment via
`accessField`, else the remaining path joined by `'/'` as one composite
key; a non-struct node reached before the segments are exhausted is
returned as-is (early stop). -/
def locateLeafLoop (current : DuoValue) : List String → Option DuoValue
  | [] => some current
  | seg :: rest =>
    match current with
    | .strct fields =>
      match accessField fields seg with
      | some next => locateLeafLoop next rest
      | none =>
        match accessField fields (String.intercalate "/" (seg :: rest)) with
        | some next => locateLeafLoop next rest
        | none => none
    | other => some other

/-- `locateLeaf` of `TypeConverter.cpp`: a non-struct root or an empty
segment list returns the root itself, otherwise the loop runs. -/
def locateLeaf (root : DuoValue) (segments : List String) : Option DuoValue :=
  match root, segments with
  | .strct _, _ :: _ => locateLeafLoop root segments
  | _, _ => some root

/-! ## Numeric string parsing (`std::stoll` / `std::stoull`, base 0) -/

/-- Errors of the C++ narrow string conversion functions. -/
inductive ParseErr : Type where
  | invalidArg : ParseErr
  | outOfRange : ParseErr
deriving DecidableEq, Repr

/-- C `isspace` in the default locale. -/
def isCSpace (c : Char) : Bool :=
  c = ' ' || (9 ≤ c.toNat && c.toNat ≤ 13)

/-- Value of a hexadecimal digit character, if any (codepoint offsets:
`'0' = 48`, `'a' - 10 = 87`, `'A' - 10 = 55`). -/
def digitVal (c : Char) : Option Nat :=
  if c.isDigit then some (c.toNat - 48)
  else if c.toNat ≥ 97 && c.toNat ≤ 102 then some (c.toNat - 87)
  else if c.toNat ≥ 65 && c.toNat ≤ 70 then some (c.toNat - 55)
  else none

/-- Consume digits in the given base, returning the accumulated value and
the number of digits consumed. -/
def takeDigits (base : Nat) : List Char → Nat → Nat → Nat × Nat
  | [], acc, count => (acc, count)
  | c :: rest, acc, count =>
    match digitVal c with
    | some d =>
      if d < base then takeDigits base rest (acc * base + d) (count + 1)
      else (acc, count)
    | none => (acc, count)

/-- Result of the `strtol`-family subject-sequence scan: sign, magnitude,
and the index one past the last consumed character. -/
structure IntScan : Type where
  neg : Bool
  magnitude : Nat
  idx : Nat
deriving DecidableEq, Repr

/-- Model of the `strtol`/`strtoull` scan with base 0 (auto-detected):
optional whitespace, optional sign, then `0x`/`0X` hexadecimal, leading-`0`
octal, or decimal digits.  `none` models "no conversion could be
performed" (`std::invalid_argument`).  A `0x` prefix not followed by a hex
digit parses as the single digit `0`. -/
def strtolScan (s : String) : Option IntScan :=
  let cs := s.toList
  let ws := (cs.takeWhile isCSpace).length
  let afterWs := cs.drop ws
  let (neg, signLen, afterSign) :=
    match afterWs with
    | '-' :: rest => (true, 1, rest)
    | '+' :: rest => (false, 1, rest)
    | rest => (false, 0, rest)
  match afterSign with
  | '0' :: x :: rest =>
    if x = 'x' || x = 'X' then
      match rest with
      | c :: _ =>
        match digitVal c with
        | some _ =>
          let (v, n) := takeDigits 16 rest 0 0
          some ⟨neg, v, ws + signLen + 2 + n⟩
        | none => some ⟨neg, 0, ws + signLen + 1⟩
      | [] => some ⟨neg, 0, ws + signLen + 1⟩
    else
      let (v, n) := takeDigits 8 (x :: rest) 0 0
      some ⟨neg, v, ws + signLen + 1 + n⟩
  | ['0'] => some ⟨neg, 0, ws + signLen + 1⟩
  | other =>
    let (v, n) := takeDigits 10 other 0 0
    if n = 0 then none else some ⟨neg, v, ws + signLen + n⟩

/-- `std::stoull(s, &idx, 0)`: scan; magnitudes above `ULLONG_MAX` throw
`std::out_of_range`; a minus sign negates the value in the unsigned
return type (wraparound modulo 2^64, per the C standard).  Returns the
value and the consumed index. -/
def stoullModel (s : String) : Except ParseErr (Nat × Nat) :=
  match strtolScan s with
  | none => .error .invalidArg
  | some p =>
    if p.magnitude > 2 ^ 64 - 1 then .error .outOfRange
    else .ok (if p.neg then (2 ^ 64 - p.magnitude) % 2 ^ 64 else p.magnitude, p.idx)

/-- `std::stoll(s, &idx, 0)`: scan; values outside the `long long` range
throw `std::out_of_range`. -/
def stollModel (s : String) : Except ParseErr (Int × Nat) :=
  match strtolScan s with
  | none => .error .invalidArg
  | some p =>
    let v : Int := if p.neg then -(p.magnitude : Int) else (p.magnitude : Int)
    if v < -(2 ^ 63) || v > 2 ^ 63 - 1 then .error .outOfRange
    else .ok (v, p.idx)

/-! ## Scalar conversions (`TypeConverter.cpp` anonymous namespace) -/

/-- `std::nearbyintl` under the default rounding mode: round half to even. -/
def rne (q : ℚ) : Int :=
  let f := ⌊q⌋
  let r := q - (f : ℚ)
  if r < 1 / 2 then f
  else if r > 1 / 2 then f + 1
  else if f % 2 = 0 then f else f + 1

/-- Width and signedness of one of the eight C++ integral target types. -/
structure IntKind : Type where
  signed : Bool
  bits : Nat
deriving DecidableEq, Repr

/-- `std::numeric_limits<T>::min()`. -/
def IntKind.minVal (k : IntKind) : Int :=
  if k.signed then -(2 ^ (k.bits - 1)) else 0

/-- `std::numeric_limits<T>::max()`. -/
def IntKind.maxVal (k : IntKind) : Int :=
  if k.signed then 2 ^ (k.bits - 1) - 1 else 2 ^ k.bits - 1

/-- `convertToIntegral<T>`: strings go through `stoll`/`stoull` with base
auto-detection, trailing-character rejection and a range check against
`T`'s limits; bools map to 0/1; numbers are rounded to nearest and range
checked (the `std::isfinite` test always passes in the rational model).
The `InvalidValueException`s thrown inside the `try` block are not caught
by the `catch (invalid_argument)` / `catch (out_of_range)` handlers, so
their messages survive unchanged. -/
def convertToIntegral (k : IntKind) (value : DuoValue) : Except ConvError Int :=
  match value with
  | .str s =>
    if k.signed then
      match stollModel s with
      | .error .invalidArg =>
        .error (.invalidValue "Failed to parse integer value from string.")
      | .error .outOfRange =>
        .error (.invalidValue "Integer value out of range.")
      | .ok (parsed, idx) =>
        if idx ≠ s.length then
          .error (.invalidValue "Non numeric characters encountered while parsing integer value.")
        else if parsed < k.minVal || parsed > k.maxVal then
          .error (.invalidValue "Signed integer value out of range.")
        else .ok parsed
    else
      match stoullModel s with
      | .error .invalidArg =>
        .error (.invalidValue "Failed to parse integer value from string.")
      | .error .outOfRange =>
        .error (.invalidValue "Integer value out of range.")
      | .ok (parsed, idx) =>
        if idx ≠ s.length then
          .error (.invalidValue "Non numeric characters encountered while parsing integer value.")
        else if (parsed : Int) > k.maxVal then
          .error (.invalidValue "Unsigned integer value out of range.")
        else .ok (parsed : Int)
  | .bool b => .ok (if b then 1 else 0)
  | .num q =>
    let rounded := rne q
    if rounded < k.minVal || rounded > k.maxVal then
      .error (.invalidValue "Integer value out of range.")
    else .ok rounded
  | _ => .error (.invalidValue "Unsupported value type for integer conversion.")

/-- `toLowerCopy` (ASCII `std::tolower` over the characters). -/
def toLowerCopy (s : String) : String :=
  String.mk (s.toList.map Char.toLower)

/-- `convertToBool`: native bool; numbers compare `|x| > 1e-6`; strings
match `true/1/false/0` case-insensitively. -/
def convertToBool (value : DuoValue) : Except ConvError Bool :=
  match value with
  | .bool b => .ok b
  | .num q => .ok (|q| > 1 / 1000000)
  | .str s =>
    let lowered := toLowerCopy s
    if lowered = "true" || lowered = "1" then .ok true
    else if lowered = "false" || lowered = "0" then .ok false
    else .error (.invalidValue "Unsupported value type for boolean conversion.")
  | _ => .error (.invalidValue "Unsupported value type for boolean conversion.")

/-- Fraction digits of a `std::stod` scan: accumulate numerator and the
power of ten of the denominator. -/
def takeFracDigits : List Char → ℚ → ℚ → Nat → ℚ × Nat
  | [], acc, _, count => (acc, count)
  | c :: rest, acc, scale, count =>
    if '0' ≤ c && c ≤ '9' then
      takeFracDigits rest (acc + (c.toNat - '0'.toNat : ℚ) * scale / 10) (scale / 10) (count + 1)
    else (acc, count)

/-- Model of `std::stod(s, &idx)` restricted to plain decimal literals
(optional whitespace and sign, digits, optional fraction, optional
decimal exponent).  Hexadecimal floats and `inf`/`nan` spellings are not
modelled; no verified property depends on this branch. -/
def stodModel (s : String) : Except ParseErr (ℚ × Nat) :=
  let cs := s.toList
  let ws := (cs.takeWhile isCSpace).length
  let afterWs := cs.drop ws
  let (neg, signLen, afterSign) :=
    match afterWs with
    | '-' :: rest => (true, 1, rest)
    | '+' :: rest => (false, 1, rest)
    | rest => (false, 0, rest)
  let (intPart, intLen) := takeDigits 10 afterSign 0 0
  let afterInt := afterSign.drop intLen
  let (fracPart, fracLen, dotLen) :=
    match afterInt with
    | '.' :: rest =>
      let (f, n) := takeFracDigits rest 0 (1 / 10 : ℚ) 0
      (f, n, 1)
    | _ => ((0 : ℚ), 0, 0)
  if intLen = 0 && fracLen = 0 then .error .invalidArg
  else
    let afterFrac := afterInt.drop (dotLen + fracLen)
    let mantissa : ℚ := (intPart : ℚ) + fracPart
    let (expo, expLen) :=
      match afterFrac with
      | e :: rest =>
        if e = 'e' || e = 'E' then
          let (eneg, esignLen, afterESign) :=
            match rest with
            | '-' :: r => (true, 1, r)
            | '+' :: r => (false, 1, r)
            | r => (false, 0, r)
          let (ev, en) := takeDigits 10 afterESign 0 0
          if en = 0 then ((0 : Int), 0)
          else ((if eneg then -(ev : Int) else (ev : Int)), 1 + esignLen + en)
        else ((0 : Int), 0)
      | [] => ((0 : Int), 0)
    let value := (if neg then -mantissa else mantissa) * (10 : ℚ) ^ expo
    .ok (value, ws + signLen + intLen + dotLen + fracLen + expLen)

/-- `convertToDouble`: numbers pass through, bools map to 0.0/1.0, strings
are parsed via `std::stod`.  The `InvalidValueException` thrown on
trailing characters is itself caught by the enclosing
`catch (const std::exception&)`, so every string failure surfaces as
"Failed to parse floating point value from string.". -/
def convertToDouble (value : DuoValue) : Except ConvError ℚ :=
  match value with
  | .num q => .ok q
  | .bool b => .ok (if b then 1 else 0)
  | .str s =>
    match stodModel s with
    | .error _ => .error (.invalidValue "Failed to parse floating point value from string.")
    | .ok (q, idx) =>
      if idx ≠ s.length then
        .error (.invalidValue "Failed to parse floating point value from string.")
      else .ok q
  | _ => .error (.invalidValue "Unsupported value type for floating point conversion.")

/-- Models the `ostringstream << number_value` branch of
`convertToString`.  The C++ stream uses default 6-significant-digit
formatting; the model renders integral values exactly and other rationals
as `num/den`.  No verified property depends on this rendering. -/
def formatDouble (q : ℚ) : String :=
  if q.den = 1 then toString q.num else toString q.num ++ "/" ++ toString q.den

/-- `convertToString`: strings pass through, bools become
`"true"/"false"`, numbers are formatted, `null` becomes the empty
string. -/
def convertToString (value : DuoValue) : Except ConvError String :=
  match value with
  | .str s => .ok s
  | .bool b => .ok (if b then "true" else "false")
  | .num q => .ok (formatDouble q)
  | .null => .ok ""
  | _ => .error (.invalidValue "Unsupported value type for string conversion.")

/-- Element-wise effectful map, aborting on the first error — the loop of
`convertList` pushing `converter(element)` results in order. -/
def mapExcept (f : DuoValue → Except ConvError α) : List DuoValue → Except ConvError (List α)
  | [] => .ok []
  | x :: rest => do
    let y ← f x
    let ys ← mapExcept f rest
    return y :: ys

/-- `convertList<T>`: requires a list value, then converts each element,
preserving order and aborting the whole conversion on any element
failure. -/
def convertList (f : DuoValue → Except ConvError α) (value : DuoValue) :
    Except ConvError (List α) :=
  match value with
  | .list xs => mapExcept f xs
  | _ => .error (.invalidValue "Expected list value for array conversion.")

/-! ## The typed datapoint model (`DataPointValue`)

`DataPointValue.h` itself is not part of the sources; its shape is
modelled from the spec (section 3): a typed slot carrying either a
concrete value plus a timestamp or a `Failure` marker plus a timestamp,
`NOT_AVAILABLE` being the only failure kind the core defines. -/

/-- Modelled from the spec: `DataPointValue::Failure`; `NOT_AVAILABLE` is
the only failure kind the core defines (spec section 3). -/
inductive DPFailure : Type where
  | NOT_AVAILABLE : DPFailure
deriving DecidableEq, Repr

/-- `DataPointValue::Type`: the 12 scalar kinds and their array
variants. -/
inductive DPType : Type where
  | BOOL | BOOL_ARRAY
  | INT8 | INT8_ARRAY
  | INT16 | INT16_ARRAY
  | INT32 | INT32_ARRAY
  | INT64 | INT64_ARRAY
  | UINT8 | UINT8_ARRAY
  | UINT16 | UINT16_ARRAY
  | UINT32 | UINT32_ARRAY
  | UINT64 | UINT64_ARRAY
  | FLOAT | FLOAT_ARRAY
  | DOUBLE | DOUBLE_ARRAY
  | STRING | STRING_ARRAY
deriving DecidableEq, Repr

/-- Payload of a valid `TypedDataPointValue<T>`.  All eight C++ integral
element types share the `Int` payload (the type tag carries the width);
`float`/`double` payloads are exact rationals. -/
inductive DPPayload : Type where
  | pBool (x : Bool)
  | pBoolArray (xs : List Bool)
  | pInt (x : Int)
  | pIntArray (xs : List Int)
  | pQ (x : ℚ)
  | pQArray (xs : List ℚ)
  | pString (x : String)
  | pStringArray (xs : List String)
deriving DecidableEq, Repr

/-- Modelled from the spec (section 3) plus the `TypedDataPointValue<T>`
uses visible in the sources: path, declared type, timestamp, and either a
failure marker or a concrete payload (mutually exclusive states). -/
structure DataPointValue : Type where
  path : String
  type : DPType
  timestamp : Nat
  content : DPFailure ⊕ DPPayload
deriving DecidableEq, Repr

/-- `makeFailedValue<T>`: a `TypedDataPointValue<T>` in the failed state,
with the type tag of the expected type. -/
def failedValue (path : String) (t : DPType) (ts : Nat) : DataPointValue :=
  ⟨path, t, ts, .inl .NOT_AVAILABLE⟩

/-- The `IntKind` of each integral `DPType`. -/
def DPType.intKind : DPType → Option IntKind
  | .INT8 | .INT8_ARRAY => some ⟨true, 8⟩
  | .INT16 | .INT16_ARRAY => some ⟨true, 16⟩
  | .INT32 | .INT32_ARRAY => some ⟨true, 32⟩
  | .INT64 | .INT64_ARRAY => some ⟨true, 64⟩
  | .UINT8 | .UINT8_ARRAY => some ⟨false, 8⟩
  | .UINT16 | .UINT16_ARRAY => some ⟨false, 16⟩
  | .UINT32 | .UINT32_ARRAY => some ⟨false, 32⟩
  | .UINT64 | .UINT64_ARRAY => some ⟨false, 64⟩
  | _ => none

/-- `DuoTypeConverter::toDuoValue`: an invalid (failed) value encodes to
`null`; valid scalars encode to the matching wire scalar (integral values
narrowed to wire numbers — exact in this rational model); arrays encode
element-wise to a wire list.  A payload not matching the declared type is
the `requireTyped` `InvalidTypeException`. -/
def toDuoValue (v : DataPointValue) : Except ConvError DuoValue :=
  match v.content with
  | .inl _ => .ok .null
  | .inr p =>
    match v.type, p with
    | .BOOL, .pBool b => .ok (.bool b)
    | .BOOL_ARRAY, .pBoolArray xs => .ok (.list (xs.map (fun b => .bool b)))
    | .INT8, .pInt x => .ok (.num (x : ℚ))
    | .INT8_ARRAY, .pIntArray xs => .ok (.list (xs.map (fun (x : Int) => DuoValue.num (x : ℚ))))
    | .INT16, .pInt x => .ok (.num (x : ℚ))
    | .INT16_ARRAY, .pIntArray xs => .ok (.list (xs.map (fun (x : Int) => DuoValue.num (x : ℚ))))
    | .INT32, .pInt x => .ok (.num (x : ℚ))
    | .INT32_ARRAY, .pIntArray xs => .ok (.list (xs.map (fun (x : Int) => DuoValue.num (x : ℚ))))
    | .INT64, .pInt x => .ok (.num (x : ℚ))
    | .INT64_ARRAY, .pIntArray xs => .ok (.list (xs.map (fun (x : Int) => DuoValue.num (x : ℚ))))
    | .UINT8, .pInt x => .ok (.num (x : ℚ))
    | .UINT8_ARRAY, .pIntArray xs => .ok (.list (xs.map (fun (x : Int) => DuoValue.num (x : ℚ))))
    | .UINT16, .pInt x => .ok (.num (x : ℚ))
    | .UINT16_ARRAY, .pIntArray xs => .ok (.list (xs.map (fun (x : Int) => DuoValue.num (x : ℚ))))
    | .UINT32, .pInt x => .ok (.num (x : ℚ))
    | .UINT32_ARRAY, .pIntArray xs => .ok (.list (xs.map (fun (x : Int) => DuoValue.num (x : ℚ))))
    | .UINT64, .pInt x => .ok (.num (x : ℚ))
    | .UINT64_ARRAY, .pIntArray xs => .ok (.list (xs.map (fun (x : Int) => DuoValue.num (x : ℚ))))
    | .FLOAT, .pQ q => .ok (.num q)
    | .FLOAT_ARRAY, .pQArray xs => .ok (.list (xs.map (fun q => .num q)))
    | .DOUBLE, .pQ q => .ok (.num q)
    | .DOUBLE_ARRAY, .pQArray xs => .ok (.list (xs.map (fun q => .num q)))
    | .STRING, .pString s => .ok (.str s)
    | .STRING_ARRAY, .pStringArray xs => .ok (.list (xs.map (fun s => .str s)))
    | _, _ => .error (.invalidType "DataPointValue type mismatch during Duo conversion.")

/-- The second `switch` of `fromDuoValue`: convert a non-null leaf
against the expected type.  `static_cast<float>` of the double is exact
in the rational model. -/
def convertLeaf (path : String) (t : DPType) (leaf : DuoValue) (ts : Nat) :
    Except ConvError DataPointValue :=
  match t with
  | .BOOL => (convertToBool leaf).map fun b => ⟨path, .BOOL, ts, .inr (.pBool b)⟩
  | .BOOL_ARRAY =>
    (convertList convertToBool leaf).map fun xs => ⟨path, .BOOL_ARRAY, ts, .inr (.pBoolArray xs)⟩
  | .INT8 => (convertToIntegral ⟨true, 8⟩ leaf).map fun x => ⟨path, .INT8, ts, .inr (.pInt x)⟩
  | .INT8_ARRAY =>
    (convertList (convertToIntegral ⟨true, 8⟩) leaf).map fun xs =>
      ⟨path, .INT8_ARRAY, ts, .inr (.pIntArray xs)⟩
  | .INT16 => (convertToIntegral ⟨true, 16⟩ leaf).map fun x => ⟨path, .INT16, ts, .inr (.pInt x)⟩
  | .INT16_ARRAY =>
    (convertList (convertToIntegral ⟨true, 16⟩) leaf).map fun xs =>
      ⟨path, .INT16_ARRAY, ts, .inr (.pIntArray xs)⟩
  | .INT32 => (convertToIntegral ⟨true, 32⟩ leaf).map fun x => ⟨path, .INT32, ts, .inr (.pInt x)⟩
  | .INT32_ARRAY =>
    (convertList (convertToIntegral ⟨true, 32⟩) leaf).map fun xs =>
      ⟨path, .INT32_ARRAY, ts, .inr (.pIntArray xs)⟩
  | .INT64 => (convertToIntegral ⟨true, 64⟩ leaf).map fun x => ⟨path, .INT64, ts, .inr (.pInt x)⟩
  | .INT64_ARRAY =>
    (convertList (convertToIntegral ⟨true, 64⟩) leaf).map fun xs =>
      ⟨path, .INT64_ARRAY, ts, .inr (.pIntArray xs)⟩
  | .UINT8 => (convertToIntegral ⟨false, 8⟩ leaf).map fun x => ⟨path, .UINT8, ts, .inr (.pInt x)⟩
  | .UINT8_ARRAY =>
    (convertList (convertToIntegral ⟨false, 8⟩) leaf).map fun xs =>
      ⟨path, .UINT8_ARRAY, ts, .inr (.pIntArray xs)⟩
  | .UINT16 =>
    (convertToIntegral ⟨false, 16⟩ leaf).map fun x => ⟨path, .UINT16, ts, .inr (.pInt x)⟩
  | .UINT16_ARRAY =>
    (convertList (convertToIntegral ⟨false, 16⟩) leaf).map fun xs =>
      ⟨path, .UINT16_ARRAY, ts, .inr (.pIntArray xs)⟩
  | .UINT32 =>
    (convertToIntegral ⟨false, 32⟩ leaf).map fun x => ⟨path, .UINT32, ts, .inr (.pInt x)⟩
  | .UINT32_ARRAY =>
    (convertList (convertToIntegral ⟨false, 32⟩) leaf).map fun xs =>
      ⟨path, .UINT32_ARRAY, ts, .inr (.pIntArray xs)⟩
  | .UINT64 =>
    (convertToIntegral ⟨false, 64⟩ leaf).map fun x => ⟨path, .UINT64, ts, .inr (.pInt x)⟩
  | .UINT64_ARRAY =>
    (convertList (convertToIntegral ⟨false, 64⟩) leaf).map fun xs =>
      ⟨path, .UINT64_ARRAY, ts, .inr (.pIntArray xs)⟩
  | .FLOAT => (convertToDouble leaf).map fun q => ⟨path, .FLOAT, ts, .inr (.pQ q)⟩
  | .FLOAT_ARRAY =>
    (convertList convertToDouble leaf).map fun xs => ⟨path, .FLOAT_ARRAY, ts, .inr (.pQArray xs)⟩
  | .DOUBLE => (convertToDouble leaf).map fun q => ⟨path, .DOUBLE, ts, .inr (.pQ q)⟩
  | .DOUBLE_ARRAY =>
    (convertList convertToDouble leaf).map fun xs => ⟨path, .DOUBLE_ARRAY, ts, .inr (.pQArray xs)⟩
  | .STRING => (convertToString leaf).map fun s => ⟨path, .STRING, ts, .inr (.pString s)⟩
  | .STRING_ARRAY =>
    (convertList convertToString leaf).map fun xs =>
      ⟨path, .STRING_ARRAY, ts, .inr (.pStringArray xs)⟩

/-- `DuoTypeConverter::fromDuoValue`: split the path, locate the leaf
(`nullptr` is the missing-path `InvalidValueException`); a `null` leaf
yields the failed value of the expected type for each of the 24 type
kinds (mirroring the first `switch`, whose arms all build
`makeFailedValue<T>` with `NOT_AVAILABLE`); any other leaf is converted
against the expected type. -/
def fromDuoValue (path : String) (t : DPType) (value : DuoValue) (ts : Nat) :
    Except ConvError DataPointValue :=
  match locateLeaf value (splitPath path) with
  | none =>
    .error (.invalidValue ("Requested datapoint path not present in Duo payload: " ++ path))
  | some .null => .ok (failedValue path t ts)
  | some leaf => convertLeaf path t leaf ts

/-! ## BrokerClient helpers (`BrokerClient.cpp` anonymous namespace) -/

/-- `joinPathSegments`: join the non-empty segments with `'/'`. -/
def joinPathSegments (segments : List String) : String :=
  segments.foldl
    (fun path segment =>
      if segment = "" then path
      else if path = "" then segment
      else path ++ "/" ++ segment)
    ""

mutual

/-- `collectValuePaths`: descend through struct nodes pushing each key
onto the accumulated path; a non-struct leaf reached with a non-empty
accumulated path emits one `(joinPathSegments path, leaf)` pair.  (The
C++ also fills a parallel `pathList` holding exactly the first components
of these pairs.) -/
def collectValuePaths (value : DuoValue) (currentPath : List String) :
    List (String × DuoValue) :=
  match value with
  | .strct fields => collectFieldPaths fields currentPath
  | other =>
    if currentPath.isEmpty then [] else [(joinPathSegments currentPath, other)]

/-- The `for` loop of `collectValuePaths` over the struct's fields:
push the key, recurse, pop the key, concatenating the emissions in field
order. -/
def collectFieldPaths (fields : List (String × DuoValue)) (currentPath : List String) :
    List (String × DuoValue) :=
  match fields with
  | [] => []
  | (key, nested) :: rest =>
    collectValuePaths nested (currentPath ++ [key]) ++ collectFieldPaths rest currentPath

end

/-! ## BrokerAsyncGrpcFacade request building (`BrokerAsyncGrpcFacade.cpp`) -/

/-- The fields `GetDatapoints` sets on the `::duo::GetReportRequest`. -/
structure GetRequest : Type where
  thing : String
  path : String
deriving DecidableEq, Repr

/-- `BrokerAsyncGrpcFacade::GetDatapoints` request construction: an empty
path list logs an error and issues no RPC (`none`); otherwise the request
carries `thing="vss"` and the slash-converted first path only. -/
def getDatapointsRequest (datapoints : List String) : Option GetRequest :=
  match datapoints with
  | [] => none
  | p :: _ => some ⟨"vss", toDuoPath p⟩

/-- The job document `SetDatapoints` builds inside the
`::duo::CreateJobRequest` (`thing="vss"` alongside). -/
structure JobDocument : Type where
  action : String
  target : String
  value : DuoValue
deriving Repr

/-- `BrokerAsyncGrpcFacade::SetDatapoints` request construction: an empty
map logs a warning and issues no RPC; otherwise a single
`{action:"set", target:path, value:...}` document from the first map
entry. -/
def setDatapointsRequest (datapointsMap : List (String × DuoValue)) : Option JobDocument :=
  match datapointsMap with
  | [] => none
  | (path, v) :: _ => some ⟨"set", path, v⟩

/-- The fields `Subscribe` sets on the `::duo::ListenReportRequest`. -/
structure ListenRequest : Type where
  thing : String
  needsInitialValue : Bool
  filters : List String
deriving DecidableEq, Repr

/-- `BrokerAsyncGrpcFacade::Subscribe` request construction:
`thing="vss"`, `needs_initial_value=true`, and one slash-converted filter
for the first target (if any). -/
def subscribeRequest (targets : List String) : ListenRequest :=
  { thing := "vss"
    needsInitialValue := true
    filters :=
      match targets with
      | [] => []
      | t :: _ => [toDuoPath t] }

/-! ## Call-completion boundaries (exception handling of the facade) -/

/-- Status of a finished gRPC call. -/
structure GrpcStatus : Type where
  ok : Bool
  errorMessage : String
deriving DecidableEq, Repr

/-- Observable behaviour of running one caller-supplied callback: it
either returns or throws. -/
inductive CallbackRun : Type where
  | ret : CallbackRun
  | thrown (msg : String) : CallbackRun
deriving DecidableEq, Repr

/-- What the transport observes at the completion boundary. -/
inductive BoundaryOutcome : Type where
  | completed : BoundaryOutcome
  | loggedError (msg : String) : BoundaryOutcome
  | propagated (msg : String) : BoundaryOutcome
deriving DecidableEq, Repr

/-- The `grpcResultHandler` lambda shared (textually) by `GetDatapoints`
and `SetDatapoints`: on OK status run the reply handler, else the error
handler, the whole dispatch wrapped in `try { ... } catch
(std::exception&) { logger().error(...); }`. -/
def unaryResultBoundary (status : GrpcStatus) (replyRun errorRun : CallbackRun) :
    BoundaryOutcome :=
  match (if status.ok then replyRun else errorRun) with
  | .ret => .completed
  | .thrown m => .loggedError m

/-- The `onData` wrapper of `Subscribe`: the caller-supplied stream
handler is invoked directly, with no surrounding `try`/`catch`, so a
throw escapes into the transport's reactor. -/
def subscribeDataBoundary (streamRun : CallbackRun) : BoundaryOutcome :=
  match streamRun with
  | .ret => .completed
  | .thrown m => .propagated m

/-- The `onFinish` wrapper of `Subscribe`: the error handler runs only on
a non-OK terminal status (also with no `try`/`catch`). -/
def subscribeFinishBoundary (status : GrpcStatus) (errorRun : CallbackRun) :
    BoundaryOutcome :=
  if status.ok then .completed
  else
    match errorRun with
    | .ret => .completed
    | .thrown m => .propagated m

/-! ## AsyncResult resolution (`BrokerClient::getDatapoints`/`setDatapoints`) -/

/-- A resolution pushed into an `AsyncResult`. -/
inductive Resolution : Type where
  | value : Resolution
  | error (msg : String) : Resolution
deriving DecidableEq, Repr

/-- Resolutions the `AsyncResult` of `BrokerClient::getDatapoints` can
receive for a given transport status: none at all when the facade issued
no RPC (so neither handler is ever invoked), else exactly the one the
completion handler produces. -/
def getDatapointsResolutions (datapoints : List String) (status : GrpcStatus) :
    List Resolution :=
  match getDatapointsRequest datapoints with
  | none => []
  | some _ =>
    if status.ok then [.value]
    else [.error ("RPC 'GetDatapoints' failed: " ++ status.errorMessage)]

/-- Resolutions the `AsyncResult` of `BrokerClient::setDatapoints` can
receive, likewise. -/
def setDatapointsResolutions (datapointsMap : List (String × DuoValue))
    (status : GrpcStatus) : List Resolution :=
  match setDatapointsRequest datapointsMap with
  | none => []
  | some _ =>
    if status.ok then [.value]
    else [.error ("RPC 'SetDatapoints' failed: " ++ status.errorMessage)]

/-! ## Subscription item delivery (`BrokerClient::subscribe`) -/

/-- The `pathValueList` built by the subscribe data callback for one
streamed `ListenResponse` whose `items()` list holds `items`: numbers and
strings are paired with the subscribed query; structs are flattened via
`collectValuePaths` starting from an empty path; every other kind (bool,
null, list) is dropped. -/
def subscribeCollect (query : String) (items : List DuoValue) :
    List (String × DuoValue) :=
  items.flatMap fun v =>
    match v with
    | .num q => [(query, .num q)]
    | .str s => [(query, .str s)]
    | .strct fields => collectValuePaths (.strct fields) []
    | _ => []

/-- Model of one `DataPointReply` delivered to the subscription: the
datapoint map (left empty by the subscribe path) and the `item` of the
stored Duo get-response. -/
structure DataPointReplyModel : Type where
  dataPointsMap : List (String × DataPointValue)
  duoItem : Option DuoValue
deriving Repr

/-- The delivery loop of the subscribe data callback: one
`subscription->insertNewItem` per `pathValueList` entry, each reply
holding only the leaf value copied into the Duo response `item` — the
computed path is not stored in the reply. -/
def subscribeDeliver (query : String) (items : List DuoValue) :
    List DataPointReplyModel :=
  (subscribeCollect query items).map fun pv => ⟨[], some pv.2⟩

/-! ## Helper lemmas -/

theorem locateLeaf_num (q : ℚ) (segs : List String) :
    locateLeaf (.num q) segs = some (.num q) := by
  cases segs <;> rfl

theorem locateLeaf_bool (b : Bool) (segs : List String) :
    locateLeaf (.bool b) segs = some (.bool b) := by
  cases segs <;> rfl

theorem locateLeaf_str (s : String) (segs : List String) :
    locateLeaf (.str s) segs = some (.str s) := by
  cases segs <;> rfl

theorem locateLeaf_list (xs : List DuoValue) (segs : List String) :
    locateLeaf (.list xs) segs = some (.list xs) := by
  cases segs <;> rfl

theorem locateLeaf_null (segs : List String) :
    locateLeaf .null segs = some .null := by
  cases segs <;> rfl

theorem fromDuoValue_num (path : String) (t : DPType) (q : ℚ) (ts : Nat) :
    fromDuoValue path t (.num q) ts = convertLeaf path t (.num q) ts := by
  unfold fromDuoValue
  rw [locateLeaf_num]

theorem fromDuoValue_bool (path : String) (t : DPType) (b : Bool) (ts : Nat) :
    fromDuoValue path t (.bool b) ts = convertLeaf path t (.bool b) ts := by
  unfold fromDuoValue
  rw [locateLeaf_bool]

theorem fromDuoValue_str (path : String) (t : DPType) (s : String) (ts : Nat) :
    fromDuoValue path t (.str s) ts = convertLeaf path t (.str s) ts := by
  unfold fromDuoValue
  rw [locateLeaf_str]

theorem fromDuoValue_list (path : String) (t : DPType) (xs : List DuoValue) (ts : Nat) :
    fromDuoValue path t (.list xs) ts = convertLeaf path t (.list xs) ts := by
  unfold fromDuoValue
  rw [locateLeaf_list]

/-- Rounding an exact integer is the identity. -/
theorem rne_intCast (x : Int) : rne (x : ℚ) = x := by
  unfold rne
  norm_num

/-- Bool-level range check matching `T`'s numeric limits. -/
def inRangeB (k : IntKind) (x : Int) : Bool :=
  decide (k.minVal ≤ x) && decide (x ≤ k.maxVal)

theorem convertToIntegral_inRangeB (k : IntKind) (x : Int) (h : inRangeB k x = true) :
    convertToIntegral k (.num (x : ℚ)) = .ok x := by
  simp only [inRangeB, Bool.and_eq_true, decide_eq_true_eq] at h
  simp [convertToIntegral, rne_intCast, not_lt.mpr h.1, not_lt.mpr h.2]

theorem mapExcept_roundtrip {α : Type} (f : DuoValue → Except ConvError α)
    (enc : α → DuoValue) (xs : List α) (h : ∀ x ∈ xs, f (enc x) = .ok x) :
    mapExcept f (xs.map enc) = .ok xs := by
  induction xs with
  | nil => rfl
  | cons x rest ih =>
    simp only [List.map_cons, mapExcept, h x (List.mem_cons_self x rest),
      ih (fun y hy => h y (List.mem_cons_of_mem x hy)), bind, Except.bind, pure, Except.pure]

theorem convertList_int (k : IntKind) (xs : List Int)
    (h : xs.all (fun x => inRangeB k x) = true) :
    convertList (convertToIntegral k) (.list (xs.map (fun (x : Int) => DuoValue.num (x : ℚ)))) = .ok xs := by
  simp only [List.all_eq_true] at h
  exact mapExcept_roundtrip _ _ xs (fun x hx => convertToIntegral_inRangeB k x (h x hx))

theorem convertList_bool (xs : List Bool) :
    convertList convertToBool (.list (xs.map (fun b => .bool b))) = .ok xs :=
  mapExcept_roundtrip _ _ xs (fun _ _ => rfl)

theorem convertList_q (xs : List ℚ) :
    convertList convertToDouble (.list (xs.map (fun q => .num q))) = .ok xs :=
  mapExcept_roundtrip _ _ xs (fun _ _ => rfl)

theorem convertList_str (xs : List String) :
    convertList convertToString (.list (xs.map (fun s => .str s))) = .ok xs :=
  mapExcept_roundtrip _ _ xs (fun _ _ => rfl)

/-- Well-formedness of a payload for a declared type: the payload shape
matches the type tag and integral values fit the target width (as
`TypedDataPointValue<T>` guarantees by construction in C++). -/
def payloadWFb : DPType → DPPayload → Bool
  | .BOOL, .pBool _ => true
  | .BOOL_ARRAY, .pBoolArray _ => true
  | .INT8, .pInt x => inRangeB ⟨true, 8⟩ x
  | .INT8_ARRAY, .pIntArray xs => xs.all (fun x => inRangeB ⟨true, 8⟩ x)
  | .INT16, .pInt x => inRangeB ⟨true, 16⟩ x
  | .INT16_ARRAY, .pIntArray xs => xs.all (fun x => inRangeB ⟨true, 16⟩ x)
  | .INT32, .pInt x => inRangeB ⟨true, 32⟩ x
  | .INT32_ARRAY, .pIntArray xs => xs.all (fun x => inRangeB ⟨true, 32⟩ x)
  | .INT64, .pInt x => inRangeB ⟨true, 64⟩ x
  | .INT64_ARRAY, .pIntArray xs => xs.all (fun x => inRangeB ⟨true, 64⟩ x)
  | .UINT8, .pInt x => inRangeB ⟨false, 8⟩ x
  | .UINT8_ARRAY, .pIntArray xs => xs.all (fun x => inRangeB ⟨false, 8⟩ x)
  | .UINT16, .pInt x => inRangeB ⟨false, 16⟩ x
  | .UINT16_ARRAY, .pIntArray xs => xs.all (fun x => inRangeB ⟨false, 16⟩ x)
  | .UINT32, .pInt x => inRangeB ⟨false, 32⟩ x
  | .UINT32_ARRAY, .pIntArray xs => xs.all (fun x => inRangeB ⟨false, 32⟩ x)
  | .UINT64, .pInt x => inRangeB ⟨false, 64⟩ x
  | .UINT64_ARRAY, .pIntArray xs => xs.all (fun x => inRangeB ⟨false, 64⟩ x)
  | .FLOAT, .pQ _ => true
  | .FLOAT_ARRAY, .pQArray _ => true
  | .DOUBLE, .pQ _ => true
  | .DOUBLE_ARRAY, .pQArray _ => true
  | .STRING, .pString _ => true
  | .STRING_ARRAY, .pStringArray _ => true
  | _, _ => false

/-- "Numeric content exactly representable as a double": integral values
within the 53-bit significand; everything else vacuously (bool/string
exactly, float/double payloads already denote exact doubles in the
rational model). -/
def exactDoubleB : DPPayload → Bool
  | .pInt x => decide (x.natAbs ≤ 2 ^ 53)
  | .pIntArray xs => xs.all (fun x => decide (x.natAbs ≤ 2 ^ 53))
  | _ => true

/-! ## C1: encode/decode round trip -/

/-- C1: for every supported scalar TypedValue whose numeric content is
exactly representable as a double, and for every array of such values,
decoding the encoding against the value's own declared type reproduces
the value (array element order preserved):
`fromDuoValue(path, type(v), toDuoValue(v), ts)` succeeds and returns a
typed value of the same declared type carrying exactly the original
payload. -/
theorem duo_value_round_trip (srcPath path : String) (t : DPType) (p : DPPayload)
    (srcTs ts : Nat) (hwf : payloadWFb t p = true) (hexact : exactDoubleB p = true) :
    ∃ dv, toDuoValue ⟨srcPath, t, srcTs, .inr p⟩ = .ok dv ∧
      fromDuoValue path t dv ts = .ok ⟨path, t, ts, .inr p⟩ := by
  cases t <;> cases p <;> simp only [payloadWFb, Bool.false_eq_true] at hwf <;>
    refine ⟨_, rfl, ?_⟩ <;>
    simp [fromDuoValue_num, fromDuoValue_bool, fromDuoValue_str, fromDuoValue_list,
      convertLeaf, convertToBool, convertToDouble, convertToString,
      convertToIntegral_inRangeB, convertList_int, convertList_bool, convertList_q,
      convertList_str, hwf, Except.map]

/-- Witness for C1 at the concrete input `INT32` value `42` on path
`"Vehicle.Speed"`. -/
theorem duo_value_round_trip_witness :
    payloadWFb .INT32 (.pInt 42) = true ∧ exactDoubleB (.pInt 42) = true ∧
    ∃ dv, toDuoValue ⟨"Vehicle.Speed", .INT32, 0, .inr (.pInt 42)⟩ = .ok dv ∧
      fromDuoValue "Vehicle.Speed" .INT32 dv 7 =
        .ok ⟨"Vehicle.Speed", .INT32, 7, .inr (.pInt 42)⟩ :=
  ⟨by decide, by decide,
    duo_value_round_trip "Vehicle.Speed" "Vehicle.Speed" .INT32 (.pInt 42) 0 7
      (by decide) (by decide)⟩

/-! ## C2: a null leaf decodes to Failure(NOT_AVAILABLE), never raises -/

/-- C2: for every expected type among the 12 scalar kinds and their 12
array variants (all inhabitants of `DPType`), if the leaf located for the
requested path is `null` then `fromDuoValue` returns (never raises) a
`Failure(NOT_AVAILABLE)` typed value whose declared type is the expected
type — the array/scalar shape therefore matches. -/
theorem null_leaf_not_available (path : String) (t : DPType) (ts : Nat)
    (root : DuoValue) (h : locateLeaf root (splitPath path) = some .null) :
    fromDuoValue path t root ts = .ok (failedValue path t ts) := by
  unfold fromDuoValue
  rw [h]

/-- Witness for C2: a `null` root located for path `"Vehicle.Speed"`
against expected type `BOOL_ARRAY`. -/
theorem null_leaf_not_available_witness :
    locateLeaf .null (splitPath "Vehicle.Speed") = some .null ∧
    fromDuoValue "Vehicle.Speed" .BOOL_ARRAY .null 7 =
      .ok (failedValue "Vehicle.Speed" .BOOL_ARRAY 7) :=
  ⟨locateLeaf_null _,
    null_leaf_not_available "Vehicle.Speed" .BOOL_ARRAY 7 .null (locateLeaf_null _)⟩

/-! ## C3: integral conversion from strings and numbers -/

/-- Counterexample to C3 as stated: the out-of-range value `-1` is NOT
rejected for the unsigned 64-bit target — `std::stoull` accepts the
leading minus sign and negates in the unsigned return type, so the
string `"-1"` converts successfully to `2^64 - 1`. -/
theorem integral_unsigned_wrap_counterexample :
    convertToIntegral ⟨false, 64⟩ (.str "-1") = .ok 18446744073709551615 ∧
    ¬ ∃ e, convertToIntegral ⟨false, 64⟩ (.str "-1") = .error e := by
  have h : convertToIntegral ⟨false, 64⟩ (.str "-1") = .ok 18446744073709551615 := by rfl
  refine ⟨h, ?_⟩
  rintro ⟨e, he⟩
  rw [h] at he
  exact Except.noConfusion he

/-- C3 amended: `"99999999999999999999"` to a 32-bit integer raises a
conversion error and `"42"` succeeds with 42; for every integral target a
numeric leaf is rounded to nearest and rejected outside the target range;
a string leaf is parsed with auto-detected base and rejected on trailing
non-numeric characters, on parse overflow, and on values outside the
target range — EXCEPT that for unsigned targets a leading minus sign is
accepted and the parsed magnitude is negated modulo 2^64 before the range
check, so `"-1"` converts to `2^64 - 1` for the unsigned 64-bit target
instead of being rejected. -/
theorem convert_to_integral_amended :
    (convertToIntegral ⟨true, 32⟩ (.str "99999999999999999999") =
      .error (.invalidValue "Integer value out of range.")) ∧
    (convertToIntegral ⟨true, 32⟩ (.str "42") = .ok 42) ∧
    (∀ (k : IntKind) (q : ℚ), ¬(rne q < k.minVal ∨ rne q > k.maxVal) →
      convertToIntegral k (.num q) = .ok (rne q)) ∧
    (∀ (k : IntKind) (q : ℚ), (rne q < k.minVal ∨ rne q > k.maxVal) →
      convertToIntegral k (.num q) =
        .error (.invalidValue "Integer value out of range.")) ∧
    (∀ (k : IntKind) (s : String) (v : Int) (idx : Nat), k.signed = true →
      stollModel s = .ok (v, idx) → idx ≠ s.length →
      convertToIntegral k (.str s) =
        .error (.invalidValue "Non numeric characters encountered while parsing integer value.")) ∧
    (∀ (k : IntKind) (s : String) (v : Int) (idx : Nat), k.signed = true →
      stollModel s = .ok (v, idx) → idx = s.length → (v < k.minVal ∨ v > k.maxVal) →
      convertToIntegral k (.str s) =
        .error (.invalidValue "Signed integer value out of range.")) ∧
    (∀ (k : IntKind) (s : String), k.signed = true → stollModel s = .error .outOfRange →
      convertToIntegral k (.str s) =
        .error (.invalidValue "Integer value out of range.")) ∧
    (∀ (k : IntKind) (s : String) (v idx : Nat), k.signed = false →
      stoullModel s = .ok (v, idx) → idx = s.length → (v : Int) > k.maxVal →
      convertToIntegral k (.str s) =
        .error (.invalidValue "Unsigned integer value out of range.")) ∧
    (∀ (k : IntKind) (s : String) (v idx : Nat), k.signed = false →
      stoullModel s = .ok (v, idx) → idx ≠ s.length →
      convertToIntegral k (.str s) =
        .error (.invalidValue "Non numeric characters encountered while parsing integer value.")) ∧
    (∀ (k : IntKind) (s : String), k.signed = false → stoullModel s = .error .outOfRange →
      convertToIntegral k (.str s) =
        .error (.invalidValue "Integer value out of range.")) ∧
    (convertToIntegral ⟨false, 64⟩ (.str "-1") = .ok (2 ^ 64 - 1)) := by
  refine ⟨by rfl, by rfl, ?_, ?_, ?_, ?_, ?_, ?_, ?_, ?_, by rfl⟩
  · intro k q h
    rw [not_or, not_lt, not_lt] at h
    simp [convertToIntegral, not_lt.mpr h.1, not_lt.mpr h.2]
  · intro k q h
    simp only [convertToIntegral]
    rw [if_pos]
    simpa using h
  · intro k s v idx hsigned hparse hidx
    simp [convertToIntegral, hsigned, hparse, hidx]
  · intro k s v idx hsigned hparse hidx hrange
    simp only [convertToIntegral, hsigned, if_true, hparse]
    rw [if_neg (by simp [hidx]), if_pos (by simpa using hrange)]
  · intro k s hsigned hparse
    simp [convertToIntegral, hsigned, hparse]
  · intro k s v idx hsigned hparse hidx hrange
    simp only [convertToIntegral, hsigned, Bool.false_eq_true, if_false, hparse]
    rw [if_neg (by simp [hidx]), if_pos (by simpa using hrange)]
  · intro k s v idx hsigned hparse hidx
    simp [convertToIntegral, hsigned, hparse, hidx]
  · intro k s hsigned hparse
    simp [convertToIntegral, hsigned, hparse]

/-- Witness for C3 amended: the trailing-character clause applied at the
concrete string `"42abc"` for the signed 32-bit target, plus the
unconditional concrete clauses. -/
theorem convert_to_integral_amended_witness :
    convertToIntegral ⟨true, 32⟩ (.str "42abc") =
      .error (.invalidValue "Non numeric characters encountered while parsing integer value.") :=
  convert_to_integral_amended.2.2.2.2.1 ⟨true, 32⟩ "42abc" 42 2 rfl (by rfl) (by decide)

/-! ## C4: leaf location -/

/-- `has_struct_value()` of the wire value. -/
def DuoValue.isStrct : DuoValue → Bool
  | .strct _ => true
  | _ => false

/-- C4: `locateLeaf` returns the current node as soon as a non-struct
node is reached (early stop, also for a non-struct root); at a struct
node the segment is looked up as a key, then (via `accessField`) with
dots replaced by slashes, then the remaining path joined by `'/'` as one
composite key, and if none match the result is `NotFound` (`none`); the
three concrete examples of the spec evaluate as claimed. -/
theorem locate_leaf_spec :
    (∀ (v : DuoValue) (segs : List String), v.isStrct = false →
      locateLeaf v segs = some v) ∧
    (∀ (v : DuoValue) (seg : String) (rest : List String), v.isStrct = false →
      locateLeafLoop v (seg :: rest) = some v) ∧
    (∀ (fields : List (String × DuoValue)) (key : String) (v : DuoValue),
      lookupField fields key = some v → accessField fields key = some v) ∧
    (∀ (fields : List (String × DuoValue)) (key : String),
      lookupField fields key = none →
      accessField fields key = lookupField fields (toDuoPath key)) ∧
    (∀ (fields : List (String × DuoValue)) (seg : String) (rest : List String)
      (next : DuoValue), accessField fields seg = some next →
      locateLeaf (.strct fields) (seg :: rest) = locateLeafLoop next rest) ∧
    (∀ (fields : List (String × DuoValue)) (seg : String) (rest : List String)
      (next : DuoValue), accessField fields seg = none →
      accessField fields (String.intercalate "/" (seg :: rest)) = some next →
      locateLeaf (.strct fields) (seg :: rest) = locateLeafLoop next rest) ∧
    (∀ (fields : List (String × DuoValue)) (seg : String) (rest : List String),
      accessField fields seg = none →
      accessField fields (String.intercalate "/" (seg :: rest)) = none →
      locateLeaf (.strct fields) (seg :: rest) = none) ∧
    (locateLeaf (.strct [("a", .strct [("b", .num 5)])]) ["a", "b"] = some (.num 5)) ∧
    (locateLeaf (.strct [("a", .strct [("b", .num 5)])]) ["a", "c"] = none) ∧
    (locateLeaf (.num 5) ["a"] = some (.num 5)) := by
  refine ⟨?_, ?_, ?_, ?_, ?_, ?_, ?_, by rfl, by rfl, by rfl⟩
  · intro v segs hv
    cases v <;> simp_all [DuoValue.isStrct] <;> cases segs <;> rfl
  · intro v seg rest hv
    cases v <;> simp_all [DuoValue.isStrct] <;> rfl
  · intro fields key v h
    simp [accessField, h]
  · intro fields key h
    simp [accessField, h]
  · intro fields seg rest next h
    simp [locateLeaf, locateLeafLoop, h]
  · intro fields seg rest next h hc
    simp [locateLeaf, locateLeafLoop, h, hc]
  · intro fields seg rest h hc
    simp [locateLeaf, locateLeafLoop, h, hc]

/-- Witness for C4: the early-stop clause applied to the scalar root `5`
with segments `["a"]`. -/
theorem locate_leaf_spec_witness :
    DuoValue.isStrct (.num 5) = false ∧ locateLeaf (.num 5) ["a"] = some (.num 5) :=
  ⟨rfl, locate_leaf_spec.1 (.num 5) ["a"] rfl⟩

/-! ## C5: flattening a struct into (path, leaf) pairs -/

/-- A non-struct node with a non-empty accumulated path emits exactly one
pair. -/
theorem collectValuePaths_leaf (v : DuoValue) (pre : List String)
    (hv : v.isStrct = false) (hpre : pre ≠ []) :
    collectValuePaths v pre = [(joinPathSegments pre, v)] := by
  have hne : pre.isEmpty = false := by
    cases pre with
    | nil => exact absurd rfl hpre
    | cons a l => rfl
  cases v <;> simp_all [collectValuePaths, DuoValue.isStrct]

/-- Flattening a struct whose fields are all leaves yields one pair per
field, in field order, with the key appended to the prefix. -/
theorem collectFieldPaths_flat (fields : List (String × DuoValue)) (pre : List String)
    (h : ∀ kv ∈ fields, (kv.2 : DuoValue).isStrct = false) :
    collectFieldPaths fields pre =
      fields.map (fun kv => (joinPathSegments (pre ++ [kv.1]), kv.2)) := by
  induction fields with
  | nil => rfl
  | cons kv rest ih =>
    obtain ⟨k, v⟩ := kv
    have hv : v.isStrct = false := h (k, v) (List.mem_cons_self _ _)
    rw [collectFieldPaths, collectValuePaths_leaf v (pre ++ [k]) hv (by simp),
      ih (fun kv hkv => h kv (List.mem_cons_of_mem _ hkv))]
    rfl

/-- Counterexample to C5 as stated: flattening `{"x": {"y": 1, "z": 2}}`
with prefix `"p"` joins the path segments with `'/'`, not `'.'` — the
emitted paths are `"p/x/y"` and `"p/x/z"`, and in particular not
`"p.x.y"`/`"p.x.z"`. -/
theorem collect_value_paths_counterexample :
    (collectValuePaths (.strct [("x", .strct [("y", .num 1), ("z", .num 2)])]) ["p"]).map
        Prod.fst = ["p/x/y", "p/x/z"] ∧
    ¬ (collectValuePaths (.strct [("x", .strct [("y", .num 1), ("z", .num 2)])]) ["p"]).map
        Prod.fst = ["p.x.y", "p.x.z"] :=
  ⟨by rfl, by decide⟩

/-- C5 amended: flattening `{"x": {"y": 1, "z": 2}}` with prefix `"p"`
yields exactly the pairs `("p/x/y", 1)` and `("p/x/z", 2)` (paths joined
with `'/'`), in the (stable) field order; in general flattening descends
through struct nodes appending each key to the accumulated prefix and
emits one `(joined-path, leaf)` pair per non-struct leaf. -/
theorem collect_value_paths_amended :
    (collectValuePaths (.strct [("x", .strct [("y", .num 1), ("z", .num 2)])]) ["p"] =
      [("p/x/y", .num 1), ("p/x/z", .num 2)]) ∧
    (∀ (v : DuoValue) (pre : List String), v.isStrct = false → pre ≠ [] →
      collectValuePaths v pre = [(joinPathSegments pre, v)]) ∧
    (∀ (fields : List (String × DuoValue)) (pre : List String),
      collectValuePaths (.strct fields) pre = collectFieldPaths fields pre) ∧
    (∀ (fields : List (String × DuoValue)) (pre : List String),
      (∀ kv ∈ fields, (kv.2 : DuoValue).isStrct = false) →
      collectFieldPaths fields pre =
        fields.map (fun kv => (joinPathSegments (pre ++ [kv.1]), kv.2))) :=
  ⟨by rfl, collectValuePaths_leaf, fun _ _ => rfl, collectFieldPaths_flat⟩

/-- Witness for C5 amended: the non-struct-leaf clause at the scalar `5`
with prefix `["p"]`. -/
theorem collect_value_paths_amended_witness :
    DuoValue.isStrct (.num 5) = false ∧ (["p"] : List String) ≠ [] ∧
    collectValuePaths (.num 5) ["p"] = [("p", .num 5)] :=
  ⟨rfl, by decide, collect_value_paths_amended.2.1 (.num 5) ["p"] rfl (by decide)⟩

/-! ## C6: the end-to-end subscribe example -/

/-- Counterexample to C6 as stated: for the streamed struct
`{"Speed": 100.5}` under subscription query `"Vehicle.Speed"`, the one
computed (path, value) pair carries path `"Speed"` — the struct key
without the subscribed query as prefix — not `"Vehicle.Speed"`; moreover
the delivered `DataPointReply` holds only the leaf value (its datapoint
map stays empty), so no path at all reaches the subscriber. -/
theorem subscribe_speed_counterexample :
    (subscribeCollect "Vehicle.Speed" [.strct [("Speed", .num 100.5)]]).map Prod.fst =
      ["Speed"] ∧
    ¬ (subscribeCollect "Vehicle.Speed" [.strct [("Speed", .num 100.5)]]).map Prod.fst =
      ["Vehicle.Speed"] ∧
    (subscribeDeliver "Vehicle.Speed" [.strct [("Speed", .num 100.5)]]).map
        DataPointReplyModel.dataPointsMap = [[]] :=
  ⟨by rfl, by decide, by rfl⟩

/-- C6 amended: `subscribe("Vehicle.Speed")` sends a request with
`needs_initial_value=true`, and one streamed struct `{"Speed": 100.5}`
delivers exactly one item whose decoded value is `100.5`; the internally
computed path of that item is `"Speed"` (the struct key, no query
prefix), and the delivered reply carries the leaf value with no path
mapping. -/
theorem subscribe_speed_amended :
    (subscribeRequest [toDuoPath "Vehicle.Speed"]).needsInitialValue = true ∧
    subscribeCollect "Vehicle.Speed" [.strct [("Speed", .num 100.5)]] =
      [("Speed", .num 100.5)] ∧
    subscribeDeliver "Vehicle.Speed" [.strct [("Speed", .num 100.5)]] =
      [⟨[], some (.num 100.5)⟩] :=
  ⟨rfl, rfl, rfl⟩

/-! ## C7: get requests carry thing="vss" and the first path only -/

/-- C7: for every non-empty requested path list, the get request carries
`thing="vss"` and the slash-converted first path; the tail does not
appear in the request at all. -/
theorem get_request_first_path_only (p : String) (rest : List String) :
    getDatapointsRequest (p :: rest) = some ⟨"vss", toDuoPath p⟩ :=
  rfl

/-! ## C8: exceptions in success callbacks at the completion boundary -/

/-- Counterexample to C8 as stated: for a streamed Subscribe item, an
exception thrown by the caller-supplied stream handler is NOT caught —
`onData` invokes the handler with no surrounding try/catch, so the throw
propagates into the transport's reactor. -/
theorem subscribe_exception_counterexample :
    subscribeDataBoundary (.thrown "boom") = .propagated "boom" ∧
    ¬ subscribeDataBoundary (.thrown "boom") = .loggedError "boom" :=
  ⟨rfl, by decide⟩

/-- C8 amended: at Get and Set call completions an exception from either
caller-supplied callback is caught and logged and never propagates into
the transport; for streamed Subscribe items, however, the data callback
is not wrapped, so an exception thrown there propagates. -/
theorem callback_exception_boundary_amended :
    (∀ (status : GrpcStatus) (r e : CallbackRun) (m : String),
      unaryResultBoundary status r e ≠ .propagated m) ∧
    (∀ (status : GrpcStatus) (m : String) (e : CallbackRun), status.ok = true →
      unaryResultBoundary status (.thrown m) e = .loggedError m) ∧
    (∀ (m : String), subscribeDataBoundary (.thrown m) = .propagated m) := by
  refine ⟨?_, ?_, fun m => rfl⟩
  · intro status r e m
    unfold unaryResultBoundary
    cases hs : status.ok <;> cases r <;> cases e <;> simp
  · intro status m e h
    simp [unaryResultBoundary, h]

/-- Witness for C8 amended: a throwing reply handler on a successful Get
completion is logged, not propagated. -/
theorem callback_exception_boundary_amended_witness :
    unaryResultBoundary ⟨true, ""⟩ (.thrown "boom") .ret = .loggedError "boom" :=
  callback_exception_boundary_amended.2.1 ⟨true, ""⟩ "boom" .ret rfl

/-! ## C9: empty get/set input issues no RPC and never resolves -/

/-- C9: `GetDatapoints` with no paths and `SetDatapoints` with no values
build no request (no RPC is issued), and consequently the `AsyncResult`
of `BrokerClient::getDatapoints`/`setDatapoints` receives no resolution —
neither a value nor an error — for any transport status. -/
theorem empty_request_no_rpc (status : GrpcStatus) :
    getDatapointsRequest [] = none ∧ setDatapointsRequest [] = none ∧
    getDatapointsResolutions [] status = [] ∧ setDatapointsResolutions [] status = [] :=
  ⟨rfl, rfl, rfl, rfl⟩

/-! ## C10: which streamed values produce subscription items -/

/-- C10: per streamed item list element: numbers and strings produce one
item carrying the subscribed query as path; structs produce the
`collectValuePaths` flattening started from the empty prefix (keys joined
with `'/'`, no query prefix — the right-hand side does not mention the
query); bool, null and list values are silently dropped; and for a struct
of leaf fields with non-empty keys the emitted paths are exactly the
keys. -/
theorem subscribe_item_filtering (q : String) (b : Bool) (n : ℚ) (s : String)
    (xs items : List DuoValue) (v : DuoValue) :
    (subscribeCollect q [] = []) ∧
    (subscribeCollect q (v :: items) = subscribeCollect q [v] ++ subscribeCollect q items) ∧
    (subscribeCollect q [.bool b] = []) ∧
    (subscribeCollect q [.null] = []) ∧
    (subscribeCollect q [.list xs] = []) ∧
    (subscribeCollect q [.num n] = [(q, .num n)]) ∧
    (subscribeCollect q [.str s] = [(q, .str s)]) ∧
    (∀ (fields : List (String × DuoValue)),
      subscribeCollect q [.strct fields] = collectValuePaths (.strct fields) []) ∧
    (∀ (fields : List (String × DuoValue)),
      (∀ kv ∈ fields, (kv.2 : DuoValue).isStrct = false) → (∀ kv ∈ fields, kv.1 ≠ "") →
      subscribeCollect q [.strct fields] = fields.map (fun kv => (kv.1, kv.2))) := by
  refine ⟨rfl, ?_, rfl, rfl, rfl, by simp [subscribeCollect], by simp [subscribeCollect],
    ?_, ?_⟩
  · cases v <;> simp [subscribeCollect]
  · intro fields
    simp [subscribeCollect, collectValuePaths]
  · intro fields hleaf hkey
    have h1 : subscribeCollect q [.strct fields] = collectFieldPaths fields [] := by
      simp [subscribeCollect, collectValuePaths]
    rw [h1, collectFieldPaths_flat fields [] hleaf]
    apply List.map_congr_left
    intro kv hkv
    have : joinPathSegments [kv.1] = kv.1 := by
      simp [joinPathSegments, hkey kv hkv]
    simp [this]

/-- Witness for C10: the leaf-struct clause at `{"Speed": 100.5}`,
together with a dropped bool item. -/
theorem subscribe_item_filtering_witness :
    subscribeCollect "Vehicle.Speed" [.strct [("Speed", .num 100.5)]] =
      [("Speed", .num 100.5)] ∧
    subscribeCollect "Vehicle.Speed" [.bool true] = [] :=
  ⟨(subscribe_item_filtering "Vehicle.Speed" true 0 "" [] [] .null).2.2.2.2.2.2.2.2
      [("Speed", .num 100.5)] (by decide) (by decide),
    (subscribe_item_filtering "Vehicle.Speed" true 0 "" [] [] .null).2.2.1⟩
